import Mathlib

/-!
Verification of `cmsplugin_cascade/bootstrap4/container.py`: a shallow
embedding of the container / row / column plugin logic, followed by theorems
settling the specified properties.

Conventions of the embedding:
* Python strings are `String`, Python lists are `List`.
* The "glossary" blob (a JSON-like dict of string keys to string values) is
  an association list `List (String × String)`; `dict.get(k, d)` becomes
  `glossaryGet`.
* `str.replace` (replace every non-overlapping occurrence, left to right) is
  `pyReplace`, implemented with a fuel argument so that it reduces in the
  kernel; the fuel `s.length` is always sufficient since every step consumes
  at least one character.
* Fallible operations (Python exceptions) return `Except`.
-/

namespace Cascade

/-- One scanning step list of Python's `str.replace`: at each position, if the
pattern occurs here, emit the replacement and skip the occurrence, otherwise
keep the character and move on.  `fuel` only bounds the recursion; with
`fuel ≥ l.length` it never runs out because each step consumes at least one
character.  An empty pattern is treated as a no-op (the embedding never calls
it with one; Python's semantics for an empty pattern differ but are unused
by the source). -/
def replaceAux (pat rep : List Char) : Nat → List Char → List Char
  | _, [] => []
  | 0, l => l
  | fuel + 1, c :: rest =>
    if (c :: rest).take pat.length = pat ∧ pat ≠ [] then
      rep ++ replaceAux pat rep fuel (rest.drop (pat.length - 1))
    else
      c :: replaceAux pat rep fuel rest

/-- Python's `s.replace(pat, rep)`. -/
def pyReplace (s pat rep : String) : String :=
  ⟨replaceAux pat.data rep.data s.data.length s.data⟩

/-- The glossary blob: a dict from string keys to string values. -/
abbrev Glossary := List (String × String)

/-- Python's `d.get(key, dflt)` on a glossary. -/
def glossaryGet (g : Glossary) (key dflt : String) : String :=
  match g.find? (fun kv => kv.1 == key) with
  | some kv => kv.2
  | none => dflt

/-- `ungettext_lazy("{} unit", "{} units", i).format(i)`: English picks the
singular exactly for `i = 1`. -/
def unitsText (i : Nat) : String :=
  toString i ++ (if i = 1 then " unit" else " units")

/-- Modelled from the spec: the `Breakpoint` enumeration of `bootstrap4/grid.py`
is not under `src/`; the spec describes "an ordered enumeration of named
responsive breakpoints (e.g., "xs", "sm", "md", "lg", "xl"), each with a human
label and a numeric pixel lower/upper bound, sourced from configuration". -/
inductive Breakpoint
  | xs | sm | md | lg | xl
deriving DecidableEq

/-- The configuration key of a breakpoint (`bp.name` on the Python enum). -/
def Breakpoint.name : Breakpoint → String
  | .xs => "xs"
  | .sm => "sm"
  | .md => "md"
  | .lg => "lg"
  | .xl => "xl"

/-- Modelled from the spec: the human label of a breakpoint (`bp.label`); the
spec leaves the label texts abstract, so the standard Bootstrap size names are
used.  The theorems below depend only on which breakpoints' labels appear,
never on the particular texts. -/
def Breakpoint.label : Breakpoint → String
  | .xs => "Extra small"
  | .sm => "Small"
  | .md => "Medium"
  | .lg => "Large"
  | .xl => "Extra large"

/-- A pixel range of a breakpoint. -/
structure Bound where
  min : Nat
  max : Nat
deriving DecidableEq

/-- Modelled from the spec: the ordered configuration dict
`CMSPLUGIN_CASCADE['bootstrap4']['fluid_bounds']` (in `app_settings`, not under
`src/`), mapping each breakpoint to its pixel bounds in xs→xl order. -/
def fluid_bounds : List (Breakpoint × Bound) :=
  [(.xs, ⟨320, 576⟩), (.sm, ⟨576, 768⟩), (.md, ⟨768, 992⟩),
   (.lg, ⟨992, 1200⟩), (.xl, ⟨1200, 1980⟩)]

/-- The part of a container's glossary the container plugin reads:
`glossary['breakpoints']` (a list of selected breakpoint names, in
configuration order) and `glossary['fluid']`. -/
structure ContainerGlossary where
  breakpoints : List String
  fluid : Bool
deriving DecidableEq

/-- `BootstrapContainerForm.clean_glossary`: reject a glossary with zero
selected breakpoints, otherwise return the cleaned glossary unchanged. -/
def clean_glossary (g : ContainerGlossary) : Except String ContainerGlossary :=
  if g.breakpoints.length = 0 then
    Except.error "At least one breakpoint must be selected."
  else
    Except.ok g

/-- The content string appended by `BootstrapContainerPlugin.get_identifier`
(the part after the inherited identifier).  Faithful to the source: after
testing the truthiness of the *selected* breakpoint list, the code rebinds
`breakpoints` to the full `fluid_bounds` configuration dict and joins the
labels of all its keys. -/
def containerIdContent (g : ContainerGlossary) : String :=
  let content := if g.fluid then "(fluid) " else ""
  if g.breakpoints.isEmpty then
    content
  else
    let devices := String.intercalate ", " (fluid_bounds.map fun bpBound => bpBound.1.label)
    content ++ "for " ++ devices

/-- What the spec asserts `get_identifier` lists: the labels of exactly the
selected breakpoints (`g.breakpoints`), resolved through the configured
enumeration.  This definition follows the spec's words, for comparison with
`containerIdContent`, which follows the source. -/
def containerIdContentSpec (g : ContainerGlossary) : String :=
  let content := if g.fluid then "(fluid) " else ""
  if g.breakpoints.isEmpty then
    content
  else
    let selected := fluid_bounds.filter fun bpBound => g.breakpoints.contains bpBound.1.name
    content ++ "for " ++ String.intercalate ", " (selected.map fun bpBound => bpBound.1.label)

/-- `BootstrapRowForm.ROW_NUM_COLUMNS`: the admissible child counts of a row. -/
def ROW_NUM_COLUMNS : List Nat := [1, 2, 3, 4, 6, 12]

/-- `column_width = 12 // wanted_children` in `BootstrapRowPlugin.save_model`. -/
def seededColumnWidth (wanted : Nat) : Nat := 12 / wanted

/-- A column child as far as row reconciliation is concerned: its glossary. -/
structure ColumnChild where
  glossary : Glossary
deriving DecidableEq

/-- Modelled from the spec: `extend_children` (defined on the plugin base, not
under `src/`) "reconcile[s] existing children to match the requested count
(add/remove to converge)", seeding each newly created child with the given
glossary.  Surviving children keep their glossary; which surplus children are
removed is unspecified, modelled as dropping from the end. -/
def extend_children (current : List ColumnChild) (wanted : Nat)
    (childGlossary : Glossary) : List ColumnChild :=
  current.take wanted ++ List.replicate (wanted - current.length) ⟨childGlossary⟩

/-- `BootstrapRowPlugin.save_model`: read the narrowest breakpoint (index 0 of
the enclosing container's selected breakpoints, an `IndexError` — modelled as
`none` — when that list is empty), pre-seed the width glossary for new
children, and reconcile the children to the wanted count. -/
def rowSaveModel (current : List ColumnChild) (wanted : Nat)
    (parentBreakpoints : List String) : Option (List ColumnChild) :=
  match parentBreakpoints with
  | [] => none
  | narrowest :: _ =>
    let childGlossary : Glossary :=
      [(narrowest ++ "-column-width",
        "col-" ++ narrowest ++ "-" ++ toString (seededColumnWidth wanted))]
    some (extend_children current wanted childGlossary)

/-- The classification the container-resolution loop of
`BootstrapColumnPlugin.get_form` makes of each ancestor's plugin class. -/
inductive AncestorKind
  | containerPlugin
  | bootstrapOther
  | nonBootstrap
deriving DecidableEq

/-- An ancestor plugin instance, as seen by the resolution loop. -/
structure Ancestor where
  kind : AncestorKind
  glossary : ContainerGlossary
deriving DecidableEq

/-- How building a column's form can fail while resolving the container. -/
inductive FormBuildError
  | improperlyConfigured
  | noneTypeAttributeError
deriving DecidableEq

/-- The container-resolution loop of `BootstrapColumnPlugin.get_form` over the
chain of ancestors (parent first).  An ancestor outside the Bootstrap plugin
family raises `ImproperlyConfigured`; reaching the end of the chain leaves
`container = None`, so the subsequent `container.glossary` access fails with
an `AttributeError` on `None` instead. -/
def resolveContainerAncestor : List Ancestor → Except FormBuildError Ancestor
  | [] => .error .noneTypeAttributeError
  | a :: rest =>
    if a.kind = .nonBootstrap then .error .improperlyConfigured
    else if a.kind = .containerPlugin then .ok a
    else resolveContainerAncestor rest

/-- The three phrase templates handed to `choose_help_text`; `{:.0f}`
formatting is absorbed into the functions. -/
structure HelpPhrases where
  narrower : Nat → String
  wider : Nat → String
  allDevices : String

/-- `breakpoints[breakpoints.index(bp) + 1]` with `IndexError ↦ none`: the
next wider neighbor of `bp` in the selected list. -/
def nextWider (bps : List Breakpoint) (bp : Breakpoint) : Option Breakpoint :=
  bps.get? (bps.indexOf bp + 1)

/-- The inner `choose_help_text` of `BootstrapColumnPlugin.get_form`: `last`
is the next wider neighbor (`none` models Python's falsy `None`), `first` the
target breakpoint itself, `bounds` the fluid or default bounds dict. -/
def choose_help_text (bounds : Breakpoint → Bound) (bps : List Breakpoint)
    (last : Option Breakpoint) (first : Breakpoint) (phrases : HelpPhrases) : String :=
  match last with
  | some l => phrases.narrower (bounds l).max
  | none =>
    if 1 < bps.length then phrases.wider (bounds first).min
    else phrases.allDevices

/-- A dynamically built form field, as far as the claims are concerned: its
glossary key, its choice list (value/label pairs) and its initial value
(`none` when the source passes no `initial`). -/
structure GlossaryFieldModel where
  name : String
  choices : List (String × String)
  initial : Option String
deriving DecidableEq

/-- The width choice list before the inherit option is considered: `col`
variants without breakpoint infix for `xs`, with infix otherwise. -/
def widthChoicesBase (bp : Breakpoint) : List (String × String) :=
  if bp = Breakpoint.xs then
    ("col", "Flex column") ::
      ((List.range' 1 12).map fun i =>
        ("col-" ++ toString i, unitsText i ++ " fixed column"))
      ++ [("col-auto", "Auto column")]
  else
    ("col-" ++ bp.name, "Flex column") ::
      ((List.range' 1 12).map fun i =>
        ("col-" ++ bp.name ++ "-" ++ toString i, unitsText i ++ " fixed column"))
      ++ [("col-" ++ bp.name ++ "-auto", "Auto column")]

/-- The `{bp}-column-width` field: the first breakpoint gets no inherit
choice and initial `col-{bp}-12`; later breakpoints get an empty-valued
"Inherit from above" choice inserted in front, with empty initial. -/
def widthField (bps : List Breakpoint) (bp : Breakpoint) : GlossaryFieldModel :=
  if bps.indexOf bp = 0 then
    { name := bp.name ++ "-column-width",
      choices := widthChoicesBase bp,
      initial := some ("col-" ++ bp.name ++ "-12") }
  else
    { name := bp.name ++ "-column-width",
      choices := ("", "Inherit from above") :: widthChoicesBase bp,
      initial := some "" }

/-- One offset choice: value `offset-{i}` (xs) or `offset-{bp}-{i}`, label
`units[i]`. -/
def offsetMk (bp : Breakpoint) (i : Nat) : String × String :=
  (if bp = Breakpoint.xs then "offset-" ++ toString i
   else "offset-" ++ bp.name ++ "-" ++ toString i, unitsText i)

/-- The `{bp}-column-offset` field: empty value means "No offset" on the
first breakpoint (range 1–12) and "Inherit from above" on later ones
(range 0–12); no initial is passed. -/
def offsetField (bps : List Breakpoint) (bp : Breakpoint) : GlossaryFieldModel :=
  let first := bps.indexOf bp = 0
  let head : String × String := if first then ("", "No offset") else ("", "Inherit from above")
  let offsetRange := if first then List.range' 1 12 else List.range' 0 13
  { name := bp.name ++ "-column-offset",
    choices := head :: offsetRange.map (offsetMk bp),
    initial := none }

/-- The `{bp}-column-ordering` field. -/
def orderField (_bps : List Breakpoint) (bp : Breakpoint) : GlossaryFieldModel :=
  let mk : Nat → String × String := fun i =>
    (if bp = Breakpoint.xs then "order-" ++ toString i
     else "order-" ++ bp.name ++ "-" ++ toString i, "Reorder by " ++ unitsText i)
  { name := bp.name ++ "-column-ordering",
    choices := ("", "No reordering") :: (List.range' 1 12).map mk,
    initial := none }

/-- The `{bp}-responsive-utils` field. -/
def utilsField (_bps : List Breakpoint) (bp : Breakpoint) : GlossaryFieldModel :=
  { name := bp.name ++ "-responsive-utils",
    choices := [("", "Default"), ("visible-" ++ bp.name, "Visible"),
                ("hidden-" ++ bp.name, "Hidden")],
    initial := some "" }

/-- The glossary field list as accumulated by the per-breakpoint loop of
`BootstrapColumnPlugin.get_form`: four fields per breakpoint, grouped by
breakpoint. -/
def columnGlossaryFields (bps : List Breakpoint) : List GlossaryFieldModel :=
  bps.flatMap fun bp => [widthField bps bp, offsetField bps bp, orderField bps bp, utilsField bps bp]

/-- A placeholder field standing for Python's `IndexError`; the reordering
indices below never actually reach it. -/
def dummyField : GlossaryFieldModel := { name := "", choices := [], initial := none }

/-- The final reordering comprehension of `get_form`:
`[gf[i + len(gf) // len(bps) * j] for i in range(len(gf) // len(bps)) for j in range(len(bps))]`. -/
def interleavedGlossaryFields (bps : List Breakpoint) : List GlossaryFieldModel :=
  let gf := columnGlossaryFields bps
  let stride := gf.length / bps.length
  (List.range stride).flatMap fun i =>
    (List.range bps.length).map fun j => gf.getD (i + stride * j) dummyField

/-- `'col-{bp}-'` stripped from a stored width value
(`width.replace('col-{0}-'.format(bp), '')`). -/
def stripWidth (bp : String) (w : String) : String :=
  pyReplace w ("col-" ++ bp ++ "-") ""

/-- The configured widths collected by `BootstrapColumnPlugin.get_identifier`:
per selected breakpoint, the stored width with the breakpoint class prefix
stripped, keeping only non-empty results. -/
def columnWidths (bps : List String) (glossary : Glossary) : List String :=
  (bps.map fun bp => stripWidth bp (glossaryGet glossary (bp ++ "-column-width") "")).filter
    (fun w => w ≠ "")

/-- `ungettext_lazy('default width: {0} unit', 'default width: {0} units',
width).format(width)` with English pluralization on the literal value. -/
def default_width_phrase (w : String) : String :=
  "default width: " ++ w ++ (if w = "1" then " unit" else " units")

/-- The content string appended by `BootstrapColumnPlugin.get_identifier`. -/
def columnIdContent (bps : List String) (glossary : Glossary) : String :=
  let widths := columnWidths bps glossary
  if 1 < widths.length then
    "widths: " ++ String.intercalate " / " widths ++ " units"
  else if widths.length = 1 then
    default_width_phrase (widths.headD "")
  else
    "unknown width"

/-- Indexing `fluid_bounds[bp]` as a total function (every breakpoint is a
key of the configuration dict, so the fallback is never reached). -/
def fluidBoundOf (bp : Breakpoint) : Bound :=
  ((fluid_bounds.find? fun p => p.1 == bp).map Prod.snd).getD ⟨0, 0⟩

/-- Concrete phrase templates used to instantiate the help-text theorems. -/
def demoPhrases : HelpPhrases :=
  { narrower := fun px => "narrower than " ++ toString px ++ " pixels"
    wider := fun px => "wider than " ++ toString px ++ " pixels"
    allDevices := "for all devices" }

/-! ## Theorems -/

/-- `quadBlocks f g h k l`: the shape of `columnGlossaryFields`, four fields
per element grouped by element; shared by the interleaving lemmas. -/
def quadBlocks (f g h k : α → β) (l : List α) : List β :=
  l.flatMap fun b => [f b, g b, h b, k b]

theorem quadBlocks_cons (f g h k : α → β) (a : α) (t : List α) :
    quadBlocks f g h k (a :: t) = f a :: g a :: h a :: k a :: quadBlocks f g h k t := rfl

theorem quadBlocks_length (f g h k : α → β) (l : List α) :
    (quadBlocks f g h k l).length = 4 * l.length := by
  induction l with
  | nil => rfl
  | cons a t ih => simp only [quadBlocks_cons, List.length_cons, ih]; omega

theorem getD_cons4 (x1 x2 x3 x4 : β) (Q : List β) (m : Nat) (d : β) :
    (x1 :: x2 :: x3 :: x4 :: Q).getD (m + 4) d = Q.getD m d := rfl

theorem quad_map_range_zero (f g h k : α → β) (d : β) (l : List α) :
    (List.range l.length).map
        (fun j => (quadBlocks f g h k l).getD (0 + 4 * j) d) = l.map f := by
  induction l with
  | nil => rfl
  | cons a t ih =>
    show (List.range (t.length + 1)).map _ = _
    rw [List.range_succ_eq_map, List.map_cons, List.map_map]
    refine congrArg₂ _ rfl ?_
    rw [← ih]
    refine List.map_congr_left fun j _ => ?_
    show (quadBlocks f g h k (a :: t)).getD (0 + 4 * (j + 1)) d
      = (quadBlocks f g h k t).getD (0 + 4 * j) d
    have harith : 0 + 4 * (j + 1) = (0 + 4 * j) + 4 := by omega
    rw [harith, quadBlocks_cons, getD_cons4]

theorem quad_map_range_one (f g h k : α → β) (d : β) (l : List α) :
    (List.range l.length).map
        (fun j => (quadBlocks f g h k l).getD (1 + 4 * j) d) = l.map g := by
  induction l with
  | nil => rfl
  | cons a t ih =>
    show (List.range (t.length + 1)).map _ = _
    rw [List.range_succ_eq_map, List.map_cons, List.map_map]
    refine congrArg₂ _ rfl ?_
    rw [← ih]
    refine List.map_congr_left fun j _ => ?_
    show (quadBlocks f g h k (a :: t)).getD (1 + 4 * (j + 1)) d
      = (quadBlocks f g h k t).getD (1 + 4 * j) d
    have harith : 1 + 4 * (j + 1) = (1 + 4 * j) + 4 := by omega
    rw [harith, quadBlocks_cons, getD_cons4]

theorem quad_map_range_two (f g h k : α → β) (d : β) (l : List α) :
    (List.range l.length).map
        (fun j => (quadBlocks f g h k l).getD (2 + 4 * j) d) = l.map h := by
  induction l with
  | nil => rfl
  | cons a t ih =>
    show (List.range (t.length + 1)).map _ = _
    rw [List.range_succ_eq_map, List.map_cons, List.map_map]
    refine congrArg₂ _ rfl ?_
    rw [← ih]
    refine List.map_congr_left fun j _ => ?_
    show (quadBlocks f g h k (a :: t)).getD (2 + 4 * (j + 1)) d
      = (quadBlocks f g h k t).getD (2 + 4 * j) d
    have harith : 2 + 4 * (j + 1) = (2 + 4 * j) + 4 := by omega
    rw [harith, quadBlocks_cons, getD_cons4]

theorem quad_map_range_three (f g h k : α → β) (d : β) (l : List α) :
    (List.range l.length).map
        (fun j => (quadBlocks f g h k l).getD (3 + 4 * j) d) = l.map k := by
  induction l with
  | nil => rfl
  | cons a t ih =>
    show (List.range (t.length + 1)).map _ = _
    rw [List.range_succ_eq_map, List.map_cons, List.map_map]
    refine congrArg₂ _ rfl ?_
    rw [← ih]
    refine List.map_congr_left fun j _ => ?_
    show (quadBlocks f g h k (a :: t)).getD (3 + 4 * (j + 1)) d
      = (quadBlocks f g h k t).getD (3 + 4 * j) d
    have harith : 3 + 4 * (j + 1) = (3 + 4 * j) + 4 := by omega
    rw [harith, quadBlocks_cons, getD_cons4]

theorem quadBlocks_count [DecidableEq β] (f g h k : α → β) (l : List α) (x : β) :
    (quadBlocks f g h k l).count x =
      (l.map f).count x + (l.map g).count x + (l.map h).count x + (l.map k).count x := by
  induction l with
  | nil => rfl
  | cons a t ih =>
    simp only [quadBlocks_cons, List.map_cons, List.count_cons, ih]
    ring

theorem quadBlocks_perm [DecidableEq β] (f g h k : α → β) (l : List α) :
    (quadBlocks f g h k l).Perm (l.map f ++ l.map g ++ l.map h ++ l.map k) := by
  refine List.perm_iff_count.mpr fun x => ?_
  simp only [List.count_append]
  exact quadBlocks_count f g h k l x

theorem resolveContainerAncestor_no_container_fails (chain : List Ancestor)
    (h : ∀ a ∈ chain, a.kind ≠ AncestorKind.containerPlugin) :
    ∃ e, resolveContainerAncestor chain = Except.error e := by
  induction chain with
  | nil => exact ⟨.noneTypeAttributeError, rfl⟩
  | cons a t ih =>
    cases hk : a.kind with
    | containerPlugin => exact absurd hk (h a (List.mem_cons_self a t))
    | nonBootstrap =>
      exact ⟨.improperlyConfigured, by simp [resolveContainerAncestor, hk]⟩
    | bootstrapOther =>
      obtain ⟨e, he⟩ := ih fun b hb => h b (List.mem_cons_of_mem a hb)
      exact ⟨e, by simp [resolveContainerAncestor, hk, he]⟩

theorem resolveContainerAncestor_alien (pre : List Ancestor) (x : Ancestor)
    (rest : List Ancestor) (hpre : ∀ a ∈ pre, a.kind = AncestorKind.bootstrapOther)
    (hx : x.kind = AncestorKind.nonBootstrap) :
    resolveContainerAncestor (pre ++ x :: rest) = Except.error FormBuildError.improperlyConfigured := by
  induction pre with
  | nil => simp [resolveContainerAncestor, hx]
  | cons b pre' ih =>
    have hb := hpre b (List.mem_cons_self b pre')
    simp only [List.cons_append, resolveContainerAncestor, hb]
    exact ih fun a ha => hpre a (List.mem_cons_of_mem b ha)

theorem resolveContainerAncestor_exhausted (chain : List Ancestor)
    (h : ∀ a ∈ chain, a.kind = AncestorKind.bootstrapOther) :
    resolveContainerAncestor chain = Except.error FormBuildError.noneTypeAttributeError := by
  induction chain with
  | nil => rfl
  | cons a t ih =>
    have ha := h a (List.mem_cons_self a t)
    simp only [resolveContainerAncestor, ha]
    exact ih fun b hb => h b (List.mem_cons_of_mem a hb)

/-- Claim C2 (code_bug evidence): with configured breakpoints xs…xl and only
`lg` selected, the container identifier built by the source lists the labels
of all five configured breakpoints, while composing the spec's words (labels
of exactly the selected breakpoints) yields only the label of `lg`.  The
`get_identifier` code checks the truthiness of the selected list, then rebinds
the variable to the whole `fluid_bounds` dict before joining labels. -/
theorem containerIdContent_ignores_selection :
    containerIdContent ⟨["lg"], false⟩
        = "for Extra small, Small, Medium, Large, Extra large" ∧
    containerIdContentSpec ⟨["lg"], false⟩ = "for Large" ∧
    containerIdContent ⟨["lg"], false⟩ ≠ containerIdContentSpec ⟨["lg"], false⟩ := by
  decide

/-- Claim C3 (counterexample): a column whose ancestry is already exhausted
(no parent at all) does not resolve to a container, yet `get_form` does not
raise `ImproperlyConfigured` there — it fails with an `AttributeError` on
`None` when dereferencing `container.glossary`. -/
theorem resolveContainerAncestor_empty_not_improperly_configured :
    resolveContainerAncestor [] = Except.error FormBuildError.noneTypeAttributeError ∧
    resolveContainerAncestor [] ≠ Except.error FormBuildError.improperlyConfigured :=
  ⟨rfl, by simp [resolveContainerAncestor]⟩

/-- Claim C3 (amended): building a column's form never silently defaults when
the ancestry does not resolve to a container — it always fails; the failure is
`ImproperlyConfigured` exactly when an ancestor outside the Bootstrap plugin
family is encountered first, while an exhausted ancestry (only non-container
Bootstrap ancestors, or none at all) fails with an `AttributeError` on `None`
instead. -/
theorem resolveContainerAncestor_failure_modes (chain : List Ancestor) :
    ((∀ a ∈ chain, a.kind ≠ AncestorKind.containerPlugin) →
        ∃ e, resolveContainerAncestor chain = Except.error e) ∧
    (∀ pre x rest, chain = pre ++ x :: rest →
        (∀ a ∈ pre, a.kind = AncestorKind.bootstrapOther) →
        x.kind = AncestorKind.nonBootstrap →
        resolveContainerAncestor chain = Except.error FormBuildError.improperlyConfigured) ∧
    ((∀ a ∈ chain, a.kind = AncestorKind.bootstrapOther) →
        resolveContainerAncestor chain = Except.error FormBuildError.noneTypeAttributeError) := by
  refine ⟨resolveContainerAncestor_no_container_fails chain, ?_, resolveContainerAncestor_exhausted chain⟩
  intro pre x rest hchain hpre hx
  rw [hchain]
  exact resolveContainerAncestor_alien pre x rest hpre hx

/-- Witness for the amended C3 theorem at concrete chains: a non-Bootstrap
parent raises `ImproperlyConfigured`; a sole non-container Bootstrap parent
ends in the `AttributeError` failure. -/
theorem resolveContainerAncestor_failure_modes_witness :
    resolveContainerAncestor [⟨AncestorKind.bootstrapOther, ⟨[], false⟩⟩,
        ⟨AncestorKind.nonBootstrap, ⟨[], false⟩⟩]
      = Except.error FormBuildError.improperlyConfigured ∧
    resolveContainerAncestor [⟨AncestorKind.bootstrapOther, ⟨[], false⟩⟩]
      = Except.error FormBuildError.noneTypeAttributeError :=
  ⟨(resolveContainerAncestor_failure_modes _).2.1
      [⟨AncestorKind.bootstrapOther, ⟨[], false⟩⟩]
      ⟨AncestorKind.nonBootstrap, ⟨[], false⟩⟩ [] rfl (by decide) rfl,
   (resolveContainerAncestor_failure_modes _).2.2 (by decide)⟩

/-- Claim C5: for breakpoints `[xs, sm, md]` with the xs width stored as six
units (`col-xs-6`, the encoding the row plugin itself seeds), sm left unset
and md stored as `col-md-4`, the column identifier collects exactly the
stripped widths `["6", "4"]` — the inherited sm entry is excluded — and
reports `widths: 6 / 4 units`. -/
theorem columnIdContent_example :
    columnWidths ["xs", "sm", "md"]
        [("xs-column-width", "col-xs-6"), ("md-column-width", "col-md-4")] = ["6", "4"] ∧
    columnIdContent ["xs", "sm", "md"]
        [("xs-column-width", "col-xs-6"), ("md-column-width", "col-md-4")]
      = "widths: 6 / 4 units" := by
  decide

/-- Claim C7: the help-text resolver phrases the device range from the
neighbors: a wider neighbor yields the "narrower than" phrase at that
neighbor's max bound; no wider neighbor with several breakpoints selected
yields the "wider than" phrase at the target's min bound; a single selected
breakpoint has no wider neighbor and collapses to the "for all devices"
phrase. -/
theorem choose_help_text_cases (bounds : Breakpoint → Bound) (bps : List Breakpoint)
    (bp : Breakpoint) (phrases : HelpPhrases) :
    (∀ nb, nextWider bps bp = some nb →
        choose_help_text bounds bps (nextWider bps bp) bp phrases
          = phrases.narrower (bounds nb).max) ∧
    (nextWider bps bp = none → 1 < bps.length →
        choose_help_text bounds bps (nextWider bps bp) bp phrases
          = phrases.wider (bounds bp).min) ∧
    (bps.length = 1 → bp ∈ bps →
        nextWider bps bp = none ∧
        choose_help_text bounds bps (nextWider bps bp) bp phrases
          = phrases.allDevices) := by
  refine ⟨?_, ?_, ?_⟩
  · intro nb hnb
    rw [hnb]
    rfl
  · intro hnone hlen
    rw [hnone]
    simp [choose_help_text, hlen]
  · intro hlen _hmem
    obtain ⟨b, rfl⟩ := List.length_eq_one.mp hlen
    have hnw : nextWider [b] bp = none := by
      simp [nextWider]
    refine ⟨hnw, ?_⟩
    rw [hnw]
    simp [choose_help_text]

/-- Witness for C7 at `[xs, sm]` (target xs: wider neighbor sm; target sm:
no wider neighbor, two selected) and `[md]` (single selection). -/
theorem choose_help_text_cases_witness :
    choose_help_text fluidBoundOf [Breakpoint.xs, Breakpoint.sm]
        (nextWider [Breakpoint.xs, Breakpoint.sm] Breakpoint.xs) Breakpoint.xs demoPhrases
      = demoPhrases.narrower (fluidBoundOf Breakpoint.sm).max ∧
    choose_help_text fluidBoundOf [Breakpoint.xs, Breakpoint.sm]
        (nextWider [Breakpoint.xs, Breakpoint.sm] Breakpoint.sm) Breakpoint.sm demoPhrases
      = demoPhrases.wider (fluidBoundOf Breakpoint.sm).min ∧
    nextWider [Breakpoint.md] Breakpoint.md = none ∧
    choose_help_text fluidBoundOf [Breakpoint.md]
        (nextWider [Breakpoint.md] Breakpoint.md) Breakpoint.md demoPhrases
      = demoPhrases.allDevices :=
  ⟨(choose_help_text_cases fluidBoundOf _ _ demoPhrases).1 Breakpoint.sm (by decide),
   (choose_help_text_cases fluidBoundOf _ _ demoPhrases).2.1 (by decide) (by decide),
   ((choose_help_text_cases fluidBoundOf [Breakpoint.md] Breakpoint.md demoPhrases).2.2
      rfl (by decide)).1,
   ((choose_help_text_cases fluidBoundOf [Breakpoint.md] Breakpoint.md demoPhrases).2.2
      rfl (by decide)).2⟩

/-- Claim C8: cleaning a container glossary with zero selected breakpoints
raises the user-facing validation error; with at least one selected it
returns the cleaned glossary unchanged. -/
theorem clean_glossary_spec (g : ContainerGlossary) :
    (g.breakpoints = [] →
        clean_glossary g = Except.error "At least one breakpoint must be selected.") ∧
    (g.breakpoints ≠ [] → clean_glossary g = Except.ok g) := by
  constructor
  · intro h
    simp [clean_glossary, h]
  · intro h
    simp [clean_glossary, List.length_eq_zero, h]

/-- Witness for C8: the empty selection errors, a one-element selection is
returned unchanged. -/
theorem clean_glossary_spec_witness :
    clean_glossary ⟨[], false⟩ = Except.error "At least one breakpoint must be selected." ∧
    clean_glossary ⟨["xs"], true⟩ = Except.ok ⟨["xs"], true⟩ :=
  ⟨(clean_glossary_spec ⟨[], false⟩).1 rfl,
   (clean_glossary_spec ⟨["xs"], true⟩).2 (by decide)⟩

/-- Claim C9: every admissible row child count divides 12 exactly, so the
per-child seeded width `12 // N` leaves no remainder and the `N` seeded
widths sum to exactly 12 units. -/
theorem row_num_columns_exact (N : Nat) (hN : N ∈ ROW_NUM_COLUMNS) :
    N ∣ 12 ∧ N * seededColumnWidth N = 12 ∧ 12 % N = 0 ∧
      (List.replicate N (seededColumnWidth N)).sum = 12 := by
  fin_cases hN <;> decide

/-- Witness for C9 at `N = 6`. -/
theorem row_num_columns_exact_witness :
    6 ∈ ROW_NUM_COLUMNS ∧
      (6 ∣ 12 ∧ 6 * seededColumnWidth 6 = 12 ∧ 12 % 6 = 0 ∧
        (List.replicate 6 (seededColumnWidth 6)).sum = 12) :=
  ⟨by decide, row_num_columns_exact 6 (by decide)⟩

theorem widthField_first (bps : List Breakpoint) (bp : Breakpoint)
    (h : bps.indexOf bp = 0) :
    widthField bps bp
      = { name := bp.name ++ "-column-width", choices := widthChoicesBase bp,
          initial := some ("col-" ++ bp.name ++ "-12") } := by
  simp [widthField, h]

theorem widthField_later (bps : List Breakpoint) (bp : Breakpoint)
    (h : bps.indexOf bp ≠ 0) :
    widthField bps bp
      = { name := bp.name ++ "-column-width",
          choices := ("", "Inherit from above") :: widthChoicesBase bp,
          initial := some "" } := by
  simp [widthField, h]

theorem offsetField_first (bps : List Breakpoint) (bp : Breakpoint)
    (h : bps.indexOf bp = 0) :
    offsetField bps bp
      = { name := bp.name ++ "-column-offset",
          choices := ("", "No offset") :: (List.range' 1 12).map (offsetMk bp),
          initial := none } := by
  simp [offsetField, h]

theorem offsetField_later (bps : List Breakpoint) (bp : Breakpoint)
    (h : bps.indexOf bp ≠ 0) :
    offsetField bps bp
      = { name := bp.name ++ "-column-offset",
          choices := ("", "Inherit from above") :: (List.range' 0 13).map (offsetMk bp),
          initial := none } := by
  simp [offsetField, h]

theorem widthChoicesBase_props (bp : Breakpoint) :
    ∀ p ∈ widthChoicesBase bp, p.1 ≠ "" ∧ p.2 ≠ "Inherit from above" := by
  cases bp <;> decide

theorem offsetMk_range_props (bp : Breakpoint) :
    ∀ p ∈ (List.range' 1 12).map (offsetMk bp), p.1 ≠ "" ∧ p.2 ≠ "Inherit from above" := by
  cases bp <;> decide

/-- Claim C4: for the first selected breakpoint, the width choices have no
empty-valued choice and neither width nor offset choices offer "Inherit from
above" (the empty-valued offset choice is "No offset", listed first); for
every later breakpoint, both the width and the offset choice lists start with
the empty-valued "Inherit from above" choice, and that empty value is also
the width field's initial value. -/
theorem columnFields_inherit_options (bps : List Breakpoint) (bp : Breakpoint) :
    (bps.indexOf bp = 0 →
        (∀ p ∈ (widthField bps bp).choices, p.1 ≠ "" ∧ p.2 ≠ "Inherit from above") ∧
        (offsetField bps bp).choices.head? = some ("", "No offset") ∧
        (∀ p ∈ (offsetField bps bp).choices, p.2 ≠ "Inherit from above") ∧
        (∀ p ∈ (offsetField bps bp).choices, p.1 = "" → p.2 = "No offset")) ∧
    (bps.indexOf bp ≠ 0 →
        (widthField bps bp).choices.head? = some ("", "Inherit from above") ∧
        (offsetField bps bp).choices.head? = some ("", "Inherit from above") ∧
        (widthField bps bp).initial = some "") := by
  constructor
  · intro h0
    rw [widthField_first bps bp h0, offsetField_first bps bp h0]
    refine ⟨widthChoicesBase_props bp, rfl, ?_, ?_⟩
    · intro p hp
      rcases List.mem_cons.mp hp with rfl | htail
      · decide
      · exact (offsetMk_range_props bp p htail).2
    · intro p hp hempty
      rcases List.mem_cons.mp hp with rfl | htail
      · rfl
      · exact absurd hempty (offsetMk_range_props bp p htail).1
  · intro hne
    rw [widthField_later bps bp hne, offsetField_later bps bp hne]
    exact ⟨rfl, rfl, rfl⟩

/-- Witness for C4 with selection `[xs, sm]`: xs is the first breakpoint,
sm a subsequent one. -/
theorem columnFields_inherit_options_witness :
    ((∀ p ∈ (widthField [Breakpoint.xs, Breakpoint.sm] Breakpoint.xs).choices,
          p.1 ≠ "" ∧ p.2 ≠ "Inherit from above") ∧
      (offsetField [Breakpoint.xs, Breakpoint.sm] Breakpoint.xs).choices.head?
          = some ("", "No offset") ∧
      (∀ p ∈ (offsetField [Breakpoint.xs, Breakpoint.sm] Breakpoint.xs).choices,
          p.2 ≠ "Inherit from above") ∧
      (∀ p ∈ (offsetField [Breakpoint.xs, Breakpoint.sm] Breakpoint.xs).choices,
          p.1 = "" → p.2 = "No offset")) ∧
    ((widthField [Breakpoint.xs, Breakpoint.sm] Breakpoint.sm).choices.head?
        = some ("", "Inherit from above") ∧
      (offsetField [Breakpoint.xs, Breakpoint.sm] Breakpoint.sm).choices.head?
        = some ("", "Inherit from above") ∧
      (widthField [Breakpoint.xs, Breakpoint.sm] Breakpoint.sm).initial = some "") :=
  ⟨(columnFields_inherit_options [Breakpoint.xs, Breakpoint.sm] Breakpoint.xs).1 (by decide),
   (columnFields_inherit_options [Breakpoint.xs, Breakpoint.sm] Breakpoint.sm).2 (by decide)⟩

/-- Claim C1: saving a row with a requested count `N` from the admissible
choice list reconciles the children to exactly `N` columns, and each newly
created child's glossary is pre-seeded, under the key built from the first
breakpoint of the enclosing container's selection, with a width of
`12 // N` units. -/
theorem rowSaveModel_reconciles (N : Nat) (_hN : N ∈ ROW_NUM_COLUMNS)
    (current : List ColumnChild) (narrowest : String) (rest : List String) :
    ∃ children,
      rowSaveModel current N (narrowest :: rest) = some children ∧
      children.length = N ∧
      ∀ c ∈ children.drop (current.take N).length,
        glossaryGet c.glossary (narrowest ++ "-column-width") ""
          = "col-" ++ narrowest ++ "-" ++ toString (seededColumnWidth N) := by
  refine ⟨extend_children current N _, rfl, ?_, ?_⟩
  · simp only [extend_children, List.length_append, List.length_take, List.length_replicate]
    omega
  · intro c hc
    rw [extend_children, List.drop_left] at hc
    have hrep := List.eq_of_mem_replicate hc
    subst hrep
    simp [glossaryGet]

/-- Witness for C1 at `N = 3` over an empty current child list with
breakpoints `["xs", "sm", "md"]`. -/
theorem rowSaveModel_reconciles_witness :
    ∃ children,
      rowSaveModel [] 3 ("xs" :: ["sm", "md"]) = some children ∧
      children.length = 3 ∧
      ∀ c ∈ children.drop (List.take 3 ([] : List ColumnChild)).length,
        glossaryGet c.glossary ("xs" ++ "-column-width") ""
          = "col-" ++ "xs" ++ "-" ++ toString (seededColumnWidth 3) :=
  rowSaveModel_reconciles 3 (by decide) [] "xs" ["sm", "md"]

theorem stripWidth_of_empty (bp : String) : stripWidth bp "" = "" := rfl

theorem default_width_phrase_ne_empty (w : String) : default_width_phrase w ≠ "" := by
  unfold default_width_phrase
  intro h
  have hl := congrArg String.length h
  rw [String.length_append, String.length_append] at hl
  have e1 : ("default width: " : String).length = 15 := rfl
  have e2 : ("" : String).length = 0 := rfl
  omega

/-- Claim C10: the column identifier's width description is never empty — a
column with no configured width for any breakpoint falls back to the literal
"unknown width", and exactly one configured width is reported through the
singular/plural "default width: {0} unit(s)" phrase instead of the
slash-joined list. -/
theorem columnIdContent_fallbacks (bps : List String) (glossary : Glossary) :
    ((∀ bp ∈ bps, glossaryGet glossary (bp ++ "-column-width") "" = "") →
        columnWidths bps glossary = [] ∧ columnIdContent bps glossary = "unknown width") ∧
    columnIdContent bps glossary ≠ "" ∧
    (∀ w, columnWidths bps glossary = [w] →
        columnIdContent bps glossary = default_width_phrase w) := by
  refine ⟨?_, ?_, ?_⟩
  · intro hall
    have hnil : columnWidths bps glossary = [] := by
      rw [columnWidths, List.filter_eq_nil_iff]
      intro a ha
      obtain ⟨bp, hbp, rfl⟩ := List.mem_map.mp ha
      rw [hall bp hbp, stripWidth_of_empty]
      simp
    exact ⟨hnil, by simp [columnIdContent, hnil]⟩
  · simp only [columnIdContent]
    split
    · intro h
      have hl := congrArg String.length h
      rw [String.length_append, String.length_append] at hl
      have e1 : ("widths: " : String).length = 8 := rfl
      have e2 : (" units" : String).length = 6 := rfl
      have e3 : ("" : String).length = 0 := rfl
      omega
    · split
      · exact default_width_phrase_ne_empty _
      · decide
  · intro w hw
    simp [columnIdContent, hw]

/-- Witness for C10: an empty glossary yields "unknown width"; a single
stored width `col-xs-6` yields the "default width" phrase. -/
theorem columnIdContent_fallbacks_witness :
    columnWidths ["xs", "sm"] [] = [] ∧
    columnIdContent ["xs", "sm"] [] = "unknown width" ∧
    columnIdContent ["xs"] [("xs-column-width", "col-xs-6")] = default_width_phrase "6" :=
  ⟨((columnIdContent_fallbacks ["xs", "sm"] []).1 (by decide)).1,
   ((columnIdContent_fallbacks ["xs", "sm"] []).1 (by decide)).2,
   (columnIdContent_fallbacks ["xs"] [("xs-column-width", "col-xs-6")]).2.2 "6" (by decide)⟩

/-- Claim C6: the reordering comprehension of `get_form` interleaves the
glossary fields by category — all width fields in breakpoint order, then all
offset fields, then all ordering fields, then all visibility fields — and is
a permutation of the breakpoint-grouped list, with exactly four fields per
selected breakpoint. -/
theorem interleavedGlossaryFields_spec (bps : List Breakpoint) (hne : bps ≠ []) :
    interleavedGlossaryFields bps
        = bps.map (widthField bps) ++ bps.map (offsetField bps)
          ++ bps.map (orderField bps) ++ bps.map (utilsField bps) ∧
    (interleavedGlossaryFields bps).Perm (columnGlossaryFields bps) ∧
    (interleavedGlossaryFields bps).length = 4 * bps.length := by
  have hq : columnGlossaryFields bps
      = quadBlocks (widthField bps) (offsetField bps) (orderField bps) (utilsField bps) bps := rfl
  have hpos : 0 < bps.length := List.length_pos.mpr hne
  have hlen : (columnGlossaryFields bps).length = 4 * bps.length := by
    rw [hq, quadBlocks_length]
  have hstride : (columnGlossaryFields bps).length / bps.length = 4 := by
    rw [hlen, Nat.mul_div_cancel _ hpos]
  have hr4 : List.range 4 = [0, 1, 2, 3] := rfl
  have hmain : interleavedGlossaryFields bps
      = bps.map (widthField bps) ++ bps.map (offsetField bps)
        ++ bps.map (orderField bps) ++ bps.map (utilsField bps) := by
    simp only [interleavedGlossaryFields]
    rw [hstride, hr4, hq]
    simp only [List.flatMap_cons, List.flatMap_nil, List.append_nil]
    rw [quad_map_range_zero, quad_map_range_one, quad_map_range_two, quad_map_range_three]
    simp [List.append_assoc]
  refine ⟨hmain, ?_, ?_⟩
  · rw [hmain, hq]
    exact (quadBlocks_perm _ _ _ _ bps).symm
  · rw [hmain]
    simp only [List.length_append, List.length_map]
    omega

/-- Witness for C6 at the selection `[xs, sm]`. -/
theorem interleavedGlossaryFields_spec_witness :
    interleavedGlossaryFields [Breakpoint.xs, Breakpoint.sm]
        = [Breakpoint.xs, Breakpoint.sm].map (widthField [Breakpoint.xs, Breakpoint.sm])
          ++ [Breakpoint.xs, Breakpoint.sm].map (offsetField [Breakpoint.xs, Breakpoint.sm])
          ++ [Breakpoint.xs, Breakpoint.sm].map (orderField [Breakpoint.xs, Breakpoint.sm])
          ++ [Breakpoint.xs, Breakpoint.sm].map (utilsField [Breakpoint.xs, Breakpoint.sm]) ∧
    (interleavedGlossaryFields [Breakpoint.xs, Breakpoint.sm]).Perm
        (columnGlossaryFields [Breakpoint.xs, Breakpoint.sm]) ∧
    (interleavedGlossaryFields [Breakpoint.xs, Breakpoint.sm]).length
        = 4 * ([Breakpoint.xs, Breakpoint.sm] : List Breakpoint).length :=
  interleavedGlossaryFields_spec [Breakpoint.xs, Breakpoint.sm] (List.cons_ne_nil _ _)

end Cascade
